import Mathlib

/-!
Verification of the CodeGram-MW static code analyzer.

The repository is a FastAPI service that statically scores untrusted code
snippets.  The development below is a shallow embedding of the analyzer:

* a small executable regular-expression engine covering exactly the regex
  features used by the repository's pattern tables (literals, alternation,
  word boundaries, character classes, bounded and unbounded repetition);
* a deep embedding of the fragment of the Python `ast` node language that
  `app/detectors/python_rules.py` inspects;
* the detector, scoring and resource-limit functions of
  `app/detectors/*.py`, `app/scoring.py` and `app/main.py`.

External CPython facilities (the `ast` parser and the `tokenize` module)
are not code of this repository; their outcome on a given source text is
passed to the embedded detector as an explicit argument (`Option` of a
parse tree resp. of a token-type list), exactly in the places where the
Python code calls them.  Concrete theorems instantiate these arguments
with the real outcome of CPython on the concrete input, which is recorded
in a comment next to each such theorem.

Python's `float` arithmetic in `suggest_limits` is modelled bit-exactly by
rounding exact rationals to IEEE-754 binary64 (round to nearest, ties to
even); all values that occur are in the normal range, so overflow and
subnormal handling are irrelevant.
-/

set_option maxRecDepth 8000

/-! ## A mini regular-expression engine

`RE` covers the regex constructs appearing in the repository's patterns.
`reMatch ci r prev s` returns the list of `(previous character, remaining
input)` states after matching `r` at the start of `s`; `prev` is the
character immediately before `s` (needed for the word-boundary assertion
`\b`).  The result list is ordered the way CPython's backtracking engine
explores alternatives (greedy repetition tries longer matches first), so
taking the head of the list mirrors `re`'s choice of match. -/

def isWordChar (c : Char) : Bool := c.isAlphanum || c == '_'

/-- Python's `\s` restricted to ASCII (all inputs considered are ASCII). -/
def isSpaceChar (c : Char) : Bool :=
  c == ' ' || c == '\t' || c == '\n' || c == '\r' || c == '\x0b' || c == '\x0c'

inductive RE where
  | eps
  | lit (cs : List Char)
  | cls (f : Char → Bool)
  | wb
  | alt2 (a b : RE)
  | seq2 (a b : RE)
  | starCls (f : Char → Bool)
  | plusCls (f : Char → Bool)
  | repUpTo (f : Char → Bool) (n : Nat)
  | opt (a : RE)

def reSeq (rs : List RE) : RE := rs.foldr RE.seq2 RE.eps

def reAlt : List RE → RE
  | [] => RE.eps
  | [r] => r
  | r :: rs => RE.alt2 r (reAlt rs)

def strLit (s : String) : RE := RE.lit s.toList

/-- Case-folding comparison used for `re.IGNORECASE` (ASCII inputs). -/
def charEqCI (ci : Bool) (a b : Char) : Bool :=
  if ci then a.toLower == b.toLower else a == b

def matchLit (ci : Bool) : List Char → Option Char → List Char →
    Option (Option Char × List Char)
  | [], prev, rest => some (prev, rest)
  | p :: ps, _, c :: rest =>
      if charEqCI ci p c then matchLit ci ps (some c) rest else none
  | _ :: _, _, [] => none

def isWordOpt : Option Char → Bool
  | some c => isWordChar c
  | none => false

/-- All states after consuming a (possibly empty) run of class characters,
shortest first. -/
def starSplitsShort (f : Char → Bool) : Option Char → List Char →
    List (Option Char × List Char)
  | prev, [] => [(prev, [])]
  | prev, c :: rest =>
      (prev, c :: rest) ::
        (if f c then starSplitsShort f (some c) rest else [])

def reMatch (ci : Bool) : RE → Option Char → List Char →
    List (Option Char × List Char)
  | .eps, prev, s => [(prev, s)]
  | .lit cs, prev, s => (matchLit ci cs prev s).toList
  | .cls _, _, [] => []
  | .cls f, _, c :: rest => if f c then [(some c, rest)] else []
  | .wb, prev, s => if isWordOpt prev != isWordOpt s.head? then [(prev, s)] else []
  | .alt2 a b, prev, s => reMatch ci a prev s ++ reMatch ci b prev s
  | .seq2 a b, prev, s =>
      (reMatch ci a prev s).foldr
        (fun pr acc => reMatch ci b pr.1 pr.2 ++ acc) []
  | .starCls f, prev, s => (starSplitsShort f prev s).reverse
  | .plusCls f, prev, s => ((starSplitsShort f prev s).drop 1).reverse
  | .repUpTo f n, prev, s => (starSplitsShort f prev s).take (n + 1)
  | .opt a, prev, s => reMatch ci a prev s ++ [(prev, s)]

/-- `re.search`: does the pattern match at some position? -/
def searchAux (ci : Bool) (r : RE) : Option Char → List Char → Bool
  | prev, [] => !(reMatch ci r prev []).isEmpty
  | prev, c :: rest =>
      !(reMatch ci r prev (c :: rest)).isEmpty || searchAux ci r (some c) rest

def reSearch (ci : Bool) (r : RE) (s : String) : Bool :=
  searchAux ci r none s.toList

/-- `len(re.findall(...))`: number of non-overlapping matches, scanning
left to right; a zero-width match advances by one character as in CPython's
scanner loop. -/
def countAux (ci : Bool) (r : RE) : Nat → Option Char → List Char → Nat
  | 0, _, _ => 0
  | _ + 1, prev, [] => if !(reMatch ci r prev []).isEmpty then 1 else 0
  | fuel + 1, prev, c :: rest =>
      match (reMatch ci r prev (c :: rest)).head? with
      | some (p', rest') =>
          if rest'.length < rest.length + 1 then 1 + countAux ci r fuel p' rest'
          else 1 + countAux ci r fuel (some c) rest
      | none => countAux ci r fuel (some c) rest

def countMatches (ci : Bool) (r : RE) (s : String) : Nat :=
  countAux ci r (s.length + 1) none s.toList

/-! Shorthands for the pieces the repository's patterns are built from. -/

def sp0 : RE := RE.starCls isSpaceChar
def sp1 : RE := RE.plusCls isSpaceChar

/-- Word-boundary-delimited literal `\bw\b`. -/
def wordRE (w : String) : RE := reSeq [RE.wb, strLit w, RE.wb]

example : reSearch false (reSeq [RE.wb, strLit "while", sp0, strLit "True", RE.wb])
    "while True:\n    pass" = true := by decide
example : reSearch false (wordRE "for") "fork" = false := by decide
example : reSearch true (wordRE "fork") "FORK and spawn" = true := by decide
example : reSearch false (reSeq [RE.wb, reAlt [strLit "subprocess", strLit "Popen",
    strLit "system("], RE.wb]) "system()" = false := by decide
example : reSearch false (reSeq [RE.wb, reAlt [strLit "subprocess", strLit "Popen",
    strLit "system("], RE.wb]) "system(x)" = true := by decide

/-! ## The Python AST fragment inspected by `python_rules.py`

Statements record their source line (`lineno`), which
`avg_function_len_python` consumes.  Expression nodes carry no line
number; where CPython's `ast.walk` would read a missing `lineno` the code
falls back to the enclosing function's start line (`getattr(n, "lineno",
start) or start`), which is how expression nodes are treated here.
`ast.Try` handlers are represented by their bodies (the only part the
detector reads). -/

inductive PyConst where
  | noneC
  | boolC (b : Bool)
  | intC (n : Int)
  | strC (s : String)

/-- CPython truthiness (`bool(value)`) for the constants representable here. -/
def pyTruthy : PyConst → Bool
  | .noneC => false
  | .boolC b => b
  | .intC n => n != 0
  | .strC s => s != ""

inductive PyExpr where
  | constant (c : PyConst)
  | name (id : String)
  | attribute (value : PyExpr) (attr : String)
  | call (func : PyExpr) (args : List PyExpr)
  | lambdaE (body : PyExpr)

inductive PyStmt where
  | functionDef (lineno : Nat) (fname : String) (body : List PyStmt)
  | asyncFunctionDef (lineno : Nat) (fname : String) (body : List PyStmt)
  | classDef (lineno : Nat) (cname : String) (body : List PyStmt)
  | returnStmt (lineno : Nat) (value : Option PyExpr)
  | breakStmt (lineno : Nat)
  | continueStmt (lineno : Nat)
  | raiseStmt (lineno : Nat) (exc : Option PyExpr)
  | passStmt (lineno : Nat)
  | exprStmt (lineno : Nat) (value : PyExpr)
  | assign (lineno : Nat) (targets : List PyExpr) (value : PyExpr)
  | ifStmt (lineno : Nat) (test : PyExpr) (body orelse : List PyStmt)
  | whileStmt (lineno : Nat) (test : PyExpr) (body orelse : List PyStmt)
  | forStmt (lineno : Nat) (target iterE : PyExpr) (body orelse : List PyStmt)
  | withStmt (lineno : Nat) (ctx : PyExpr) (body : List PyStmt)
  | tryStmt (lineno : Nat) (body : List PyStmt) (handlers : List (List PyStmt))
      (orelse finalbody : List PyStmt)
  | importStmt (lineno : Nat) (names : List String)
  | importFrom (lineno : Nat) (modname : Option String) (names : List String)

/-- A node yielded by `ast.walk`: either a statement or an expression. -/
inductive AstNode where
  | stmt (s : PyStmt)
  | expr (e : PyExpr)

/- `ast.walk` enumerates every node of the tree.  CPython walks
breadth-first; the enumeration below is depth-first.  Both yield the same
multiset of nodes, and no property proved below depends on the order in
which nodes are visited (only sums of scores and memberships in the reason
and blocked lists are at stake). -/
mutual
def walkStmt : PyStmt → List AstNode
  | .functionDef ln nm body => .stmt (.functionDef ln nm body) :: walkStmts body
  | .asyncFunctionDef ln nm body => .stmt (.asyncFunctionDef ln nm body) :: walkStmts body
  | .classDef ln nm body => .stmt (.classDef ln nm body) :: walkStmts body
  | .returnStmt ln v => .stmt (.returnStmt ln v) :: walkOptExpr v
  | .breakStmt ln => [.stmt (.breakStmt ln)]
  | .continueStmt ln => [.stmt (.continueStmt ln)]
  | .raiseStmt ln e => .stmt (.raiseStmt ln e) :: walkOptExpr e
  | .passStmt ln => [.stmt (.passStmt ln)]
  | .exprStmt ln v => .stmt (.exprStmt ln v) :: walkExpr v
  | .assign ln ts v => .stmt (.assign ln ts v) :: (walkExprs ts ++ walkExpr v)
  | .ifStmt ln t b o =>
      .stmt (.ifStmt ln t b o) :: (walkExpr t ++ walkStmts b ++ walkStmts o)
  | .whileStmt ln t b o =>
      .stmt (.whileStmt ln t b o) :: (walkExpr t ++ walkStmts b ++ walkStmts o)
  | .forStmt ln tg it b o =>
      .stmt (.forStmt ln tg it b o) ::
        (walkExpr tg ++ walkExpr it ++ walkStmts b ++ walkStmts o)
  | .withStmt ln c b => .stmt (.withStmt ln c b) :: (walkExpr c ++ walkStmts b)
  | .tryStmt ln b hs o f =>
      .stmt (.tryStmt ln b hs o f) ::
        (walkStmts b ++ walkHandlers hs ++ walkStmts o ++ walkStmts f)
  | .importStmt ln ns => [.stmt (.importStmt ln ns)]
  | .importFrom ln m ns => [.stmt (.importFrom ln m ns)]
def walkStmts : List PyStmt → List AstNode
  | [] => []
  | s :: rest => walkStmt s ++ walkStmts rest
def walkHandlers : List (List PyStmt) → List AstNode
  | [] => []
  | h :: rest => walkStmts h ++ walkHandlers rest
def walkExpr : PyExpr → List AstNode
  | .constant c => [.expr (.constant c)]
  | .name id => [.expr (.name id)]
  | .attribute v a => .expr (.attribute v a) :: walkExpr v
  | .call f args => .expr (.call f args) :: (walkExpr f ++ walkExprs args)
  | .lambdaE b => .expr (.lambdaE b) :: walkExpr b
def walkExprs : List PyExpr → List AstNode
  | [] => []
  | e :: rest => walkExpr e ++ walkExprs rest
def walkOptExpr : Option PyExpr → List AstNode
  | none => []
  | some e => walkExpr e
end

/-! ## `app/detectors/base.py` -/

/-- The result dictionary returned by every detector (`make_result`).
`style` models the style dict as an association list. -/
structure AnalysisResult where
  score : Int
  reasons : List String
  blocked : List String
  style : List (String × Rat)
  hard_block : Bool
deriving DecidableEq

/-- `base.make_result`.  The Python defaults (`reasons or []` etc.) are
supplied explicitly by every caller below; `hard_block` defaults to
`False` in the source and no caller of the repository ever passes it. -/
def make_result (score : Int) (reasons : List String) (blocked : List String)
    (style : List (String × Rat)) (hard_block : Bool) : AnalysisResult :=
  { score := max 0 (min 100 score)
  , reasons := reasons
  , blocked := blocked
  , style := style
  , hard_block := hard_block }

/-- Lexicographic comparison of strings by code points, exactly Python's
`str` ordering (stated on the character lists, whose `≤` is the
lexicographic lift of `Char`'s code-point order). -/
def pyStrLe (a b : String) : Prop := a.toList ≤ b.toList

instance : DecidableRel pyStrLe := fun a b =>
  inferInstanceAs (Decidable (a.toList ≤ b.toList))

instance : IsTotal String pyStrLe := ⟨fun a b => le_total a.toList b.toList⟩

instance : IsTrans String pyStrLe := ⟨fun _ _ _ => le_trans⟩

/-- `list(sorted(set(l)))` on strings: deduplicate, then sort
lexicographically. -/
def pySortedSet (l : List String) : List String :=
  List.insertionSort pyStrLe l.dedup

example : pySortedSet ["no-os", "infinite-loop", "no-os"] =
    ["infinite-loop", "no-os"] := by decide

/-! ## `app/utils.py`

`comment_ratio` is computed from CPython's `tokenize` stream.  The
tokenizer is standard-library code, so the detector below receives the
token-type stream as an explicit `Option (List TokType)` argument (`none`
models `tokenize` raising, which the `except` clause turns into `0.0`). -/

inductive TokType where
  | ENCODING | COMMENT | NL | NEWLINE | NAME | OP | INDENT | DEDENT
  | ENDMARKER | NUMBER | STRING
deriving DecidableEq

/-- `utils.comment_ratio`: `#comments / #tokens`, counting every token
except `ENCODING` and `NL`; `0.0` when the total is zero or tokenizing
failed. -/
def comment_ratio_q (toks : Option (List TokType)) : Rat :=
  match toks with
  | none => 0
  | some ts =>
      let comments := (ts.filter (fun t => t == TokType.COMMENT)).length
      let total := (ts.filter (fun t => t != TokType.ENCODING && t != TokType.NL)).length
      if total == 0 then 0 else (comments : Rat) / (total : Rat)

/-- Round half to even at the integers (the tie-breaking CPython's
`round` uses).  The inputs rounded in this development are exact in
binary64, so modelling `round` on the exact rational is faithful. -/
def roundHalfEvenZ (q : Rat) : Int :=
  let n := ⌊q⌋
  let f := q - (n : Rat)
  if f < 1 / 2 then n
  else if 1 / 2 < f then n + 1
  else if n % 2 = 0 then n else n + 1

/-- Python's `round(x, d)`. -/
def round_py (q : Rat) (d : Nat) : Rat :=
  (roundHalfEvenZ (q * (10 : Rat) ^ d) : Rat) / (10 : Rat) ^ d

/-- The line number stored on a statement node. -/
def stmtLineno : PyStmt → Nat
  | .functionDef ln _ _ => ln
  | .asyncFunctionDef ln _ _ => ln
  | .classDef ln _ _ => ln
  | .returnStmt ln _ => ln
  | .breakStmt ln => ln
  | .continueStmt ln => ln
  | .raiseStmt ln _ => ln
  | .passStmt ln => ln
  | .exprStmt ln _ => ln
  | .assign ln _ _ => ln
  | .ifStmt ln _ _ _ => ln
  | .whileStmt ln _ _ _ => ln
  | .forStmt ln _ _ _ _ => ln
  | .withStmt ln _ _ => ln
  | .tryStmt ln _ _ _ _ => ln
  | .importStmt ln _ => ln
  | .importFrom ln _ _ => ln

/-- `getattr(n, "lineno", start) or start` for a walked node: expression
nodes and a zero line number fall back to `start`. -/
def nodeLinenoOr (start : Nat) : AstNode → Nat
  | .stmt s => if stmtLineno s == 0 then start else stmtLineno s
  | .expr _ => start

/-- `max(getattr(n, "lineno", start) or start for n in ast.walk(node))`. -/
def subtreeEnd (start : Nat) (s : PyStmt) : Nat :=
  ((walkStmt s).map (nodeLinenoOr start)).foldl max 0

/-- `utils.avg_function_len_python`: mean of `end - start + 1` over all
function definitions with a nonempty body and a nonzero start line. -/
def avg_function_len_python (tree : List PyStmt) : Rat :=
  let lens := (walkStmts tree).foldr (fun n acc =>
    match n with
    | .stmt (.functionDef ln nm body) =>
        if body.isEmpty then acc
        else
          let e := subtreeEnd ln (.functionDef ln nm body)
          if ln != 0 && decide (ln ≤ e) then ((e - ln + 1 : Nat) : Rat) :: acc else acc
    | .stmt (.asyncFunctionDef ln nm body) =>
        if body.isEmpty then acc
        else
          let e := subtreeEnd ln (.asyncFunctionDef ln nm body)
          if ln != 0 && decide (ln ≤ e) then ((e - ln + 1 : Nat) : Rat) :: acc else acc
    | _ => acc) []
  if lens.isEmpty then 0 else lens.sum / (lens.length : Rat)

/-! ## `app/detectors/python_rules.py` -/

namespace python_rules

/-- The regex quick-check table `GENERIC_FORBIDDEN` of `python_rules.py`
(pattern, points, reason); searched case-sensitively (`re.MULTILINE` only
affects `^`/`$`, which none of the patterns use). -/
def GENERIC_FORBIDDEN : List (RE × Int × String) :=
  [ (reSeq [RE.wb, reAlt [strLit "eval", strLit "exec"], RE.wb], 35, "동적 코드 실행")
  , (reSeq [RE.wb, reAlt [strLit "subprocess", strLit "Popen", strLit "system("], RE.wb],
      30, "프로세스 실행")
  , (reSeq [RE.wb, reAlt [strLit "socket.", strLit "requests.", strLit "httpx."]],
      10, "네트워크 접근")
  , (reSeq [RE.wb, strLit "while", sp0, strLit "True", RE.wb], 20, "무한루프(정적 패턴)")
  , (reSeq [RE.wb, strLit "os.fork", RE.wb], 40, "포크 폭탄 위험")
  , (strLit "__import__(", 25, "우회 임포트")
  , (reSeq [RE.wb, reAlt [strLit "ctypes.", strLit "cffi."]], 25, "네이티브 호출") ]

def PY_FORBIDDEN_IMPORTS : List (String × Int) :=
  [ ("subprocess", 35), ("socket", 12), ("os", 8), ("sys", 6)
  , ("multiprocessing", 14), ("threading", 8), ("httpx", 8), ("requests", 8)
  , ("ctypes", 25) ]

/- `_body_has_exit_statements` iterates over a statement list; the loop
body is factored into the per-node function `exit_check_node` so that the
recursion is structural.  Per the source: a direct `break`/`return`/`raise`
is an exit; an expression statement calling `exit`/`quit` (bare name) or
`.exit`/`.abort`/`.terminate` (attribute) is an exit; `if`/`for`/`while`/
`with`/`try` are scanned recursively (body and `orelse` when the node has
one, plus handler bodies and `finalbody` for `try`); nested function /
class definitions are skipped (`ast.Lambda` also appears in the source's
skip tuple, but a lambda is never a statement). -/
mutual
def exit_check_node : PyStmt → Bool
  | .breakStmt _ => true
  | .returnStmt _ _ => true
  | .raiseStmt _ _ => true
  | .exprStmt _ (.call (.name f) _) => f == "exit" || f == "quit"
  | .exprStmt _ (.call (.attribute _ attr) _) =>
      attr == "exit" || attr == "abort" || attr == "terminate"
  | .ifStmt _ _ b o => _body_has_exit_statements b || _body_has_exit_statements o
  | .forStmt _ _ _ b o => _body_has_exit_statements b || _body_has_exit_statements o
  | .whileStmt _ _ b o => _body_has_exit_statements b || _body_has_exit_statements o
  | .withStmt _ _ b => _body_has_exit_statements b
  | .tryStmt _ b hs o f =>
      _body_has_exit_statements b || _body_has_exit_statements o ||
        handlers_have_exit hs || _body_has_exit_statements f
  | _ => false
def _body_has_exit_statements : List PyStmt → Bool
  | [] => false
  | node :: rest => exit_check_node node || _body_has_exit_statements rest
def handlers_have_exit : List (List PyStmt) → Bool
  | [] => false
  | h :: rest => _body_has_exit_statements h || handlers_have_exit rest
end

/-- `_is_constant_true_test`.  On Python ≥ 3.8 every literal parses to
`ast.Constant`, and the deprecated aliases `ast.NameConstant` / `ast.Num`
are `isinstance`-aliases of `Constant`, so the source's first branch
(`bool(test_node.value) is True`) decides all constants and the alias
branches are unreachable; the final branch accepts a bare `Name` whose id
is the string `True`. -/
def _is_constant_true_test : PyExpr → Bool
  | .constant c => pyTruthy c
  | .name id => id == "True"
  | _ => false

/-- The reasons `_detect_infinite_loops_in_ast` appends for one walked
node: a `while` with constant-true test and no escape in its body; a `for`
over a call to (anything named) `count`; a call to bare `iter` with two
arguments. -/
def infinite_loop_node_reasons : AstNode → List String
  | .stmt (.whileStmt _ test body _) =>
      if _is_constant_true_test test && !_body_has_exit_statements body then
        ["무한루프 탐지: constant True while without exit"]
      else []
  | .stmt (.forStmt _ _ (.call f _) _ _) =>
      if (match f with
          | .attribute _ attr => some attr
          | .name id => some id
          | _ => none) == some "count" then
        ["무한루프 탐지: for in \x27count()\x27 (무한 반복 가능성)"]
      else []
  | .expr (.call (.name "iter") args) =>
      if args.length == 2 then
        ["무한루프 탐지: iter(callable, sentinel) 패턴 (무한 반복 가능성)"]
      else []
  | _ => []

def _detect_infinite_loops_in_ast (tree : List PyStmt) : List String :=
  (walkStmts tree).foldl (fun acc n => acc ++ infinite_loop_node_reasons n) []

/-- The per-alias body of the forbidden-import loop:
`mod = alias.name.split(".")[0]`, then score/reason/blocked updates when
`mod` is a key of `PY_FORBIDDEN_IMPORTS`. -/
def import_alias_check (acc : Int × List String × List String)
    (aliasName : String) : Int × List String × List String :=
  let mod := String.mk (aliasName.toList.takeWhile (fun c => c != '.'))
  match PY_FORBIDDEN_IMPORTS.lookup mod with
  | some pts => (acc.1 + pts, acc.2.1 ++ ["위험 모듈: " ++ mod], acc.2.2 ++ ["no-" ++ mod])
  | none => acc

/-- The body of the `for node in ast.walk(tree)` loop: forbidden imports
(each alias) and dynamic-execution calls (`eval`/`exec` by bare name or
attribute name). -/
def ast_node_check (acc : Int × List String × List String) (n : AstNode) :
    Int × List String × List String :=
  match n with
  | .stmt (.importStmt _ names) => names.foldl import_alias_check acc
  | .stmt (.importFrom _ _ names) => names.foldl import_alias_check acc
  | .expr (.call f _) =>
      match (match f with
             | .name id => some id
             | .attribute _ attr => some attr
             | _ => none) with
      | some fn =>
          if fn == "eval" || fn == "exec" then
            (acc.1 + 30, acc.2.1 ++ ["동적 실행 함수: " ++ fn], acc.2.2)
          else acc
      | none => acc
  | _ => acc

/-- The `try: tree = ast.parse(code) ... except:` section of
`analyze_python`: the AST walk plus infinite-loop detection when parsing
succeeded, the fixed `+5` penalty and parse-failure reason when it did
not. -/
def ast_pass (parsed : Option (List PyStmt)) : Int × List String × List String :=
  match parsed with
  | none => (5, ["AST 파싱 실패"], [])
  | some tree =>
      let base := (walkStmts tree).foldl ast_node_check (0, [], [])
      let inf := _detect_infinite_loops_in_ast tree
      if inf.isEmpty then base
      else (base.1 + 90, base.2.1 ++ inf, base.2.2 ++ ["infinite-loop"])

/-- The regex quick-check loop of `analyze_python`. -/
def regex_pass (code : String) : Int × List String :=
  GENERIC_FORBIDDEN.foldl
    (fun acc t => if reSearch false t.1 code then (acc.1 + t.2.1, acc.2 ++ [t.2.2]) else acc)
    (0, [])

/-- `python_rules.analyze_python`.  `parsed` is the outcome of
`ast.parse(code)` (`none` = raised) and `toks` the outcome of
`tokenize` on the same text (`none` = raised), both CPython
standard-library calls. -/
def analyze_python (code : String) (parsed : Option (List PyStmt))
    (toks : Option (List TokType)) : AnalysisResult :=
  let rx := regex_pass code
  let astr := ast_pass parsed
  let style : List (String × Rat) :=
    [ ("comment_ratio", round_py (comment_ratio_q toks) 3)
    , ("avg_function_length",
        round_py (match parsed with
                  | some t => avg_function_len_python t
                  | none => 0) 1) ]
  make_result (rx.1 + astr.1) (rx.2 ++ astr.2.1) (pySortedSet astr.2.2) style false

end python_rules

/- The CPython artefacts for `"while True:\n    pass"`:
`ast.parse` gives `Module([While(Constant(True), [Pass()], [])])` with the
`while` on line 1 and `pass` on line 2; `tokenize` gives
ENCODING NAME NAME OP NEWLINE INDENT NAME NEWLINE DEDENT ENDMARKER. -/
def whileTrueTree : List PyStmt :=
  [.whileStmt 1 (.constant (.boolC true)) [.passStmt 2] []]

def whileTrueToks : List TokType :=
  [.ENCODING, .NAME, .NAME, .OP, .NEWLINE, .INDENT, .NAME, .NEWLINE, .DEDENT, .ENDMARKER]


/-! ## `app/detectors/resource_utils.py`

Every `re.search`/`re.findall` in this module passes `re.IGNORECASE`
except the `\bwhile\b|\bfor\b`, `\bbreak\b` and recursion-snippet
searches.  The pattern source strings (second components) are carried
along because the detector quotes them verbatim inside reasons. -/

namespace resource_utils

def INFINITE_LOOP_PATTERNS : List (RE × String) :=
  [ (reSeq [RE.wb, strLit "while", sp0, strLit "(", sp0, strLit "1", sp0, strLit ")"],
      "\\bwhile\\s*\\(\\s*1\\s*\\)")
  , (reSeq [RE.wb, strLit "for", sp0, strLit "(", sp0, strLit ";", sp0, strLit ";",
      sp0, strLit ")"], "\\bfor\\s*\\(\\s*;\\s*;\\s*\\)")
  , (reSeq [RE.wb, strLit "while", sp1, strLit "True", sp0, strLit ":"],
      "\\bwhile\\s+True\\s*:")
  , (reSeq [RE.wb, strLit "do", sp0, strLit "\x7b", RE.starCls (fun _ => true),
      strLit "\x7d", sp0, strLit "while", sp0, strLit "(1)"],
      "\\bdo\\s*\\\x7b[\\s\\S]*?\\\x7d\\s*while\\s*\\(1\\)") ]

/-- `\bwhile\b|\bfor\b` (no flags, case-sensitive). -/
def re_while_or_for : RE := RE.alt2 (wordRE "while") (wordRE "for")

/-- `\bbreak\b` (no flags). -/
def re_break : RE := wordRE "break"

def detect_infinite_loop (code : String) : Int × List String :=
  let base := INFINITE_LOOP_PATTERNS.foldl
    (fun acc pr =>
      if reSearch true pr.1 code then
        (acc.1 + 40, acc.2 ++ ["무한루프(정적 패턴): " ++ pr.2])
      else acc)
    (0, [])
  if reSearch false re_while_or_for code && !reSearch false re_break code then
    (base.1 + 5, base.2 ++ ["반복문에서 break/중단 키워드 미검출 — 잠재적 장시간 실행"])
  else base

/-! The six `LARGE_ALLOC_PATTERNS` each contain one capture group of
digits; `detect_large_alloc` reads the captured number back.  Each is
modelled as a prefix pattern (up to the digit group), a minimum digit
count, and a suffix pattern; `searchDigitCapture` scans for the leftmost
position where prefix, a maximal digit run of at least the minimum length
and suffix all match, and returns the run's value — exactly the captured
group, since no suffix here can consume a digit the greedy group gave
up. -/

def digitVal (cs : List Char) : Nat :=
  cs.foldl (fun acc c => acc * 10 + (c.toNat - 48)) 0

def digitCaptureAt (ci : Bool) (pre post : RE) (minD : Nat)
    (prev : Option Char) (s : List Char) : Option Nat :=
  (reMatch ci pre prev s).foldl
    (fun acc pr =>
      match acc with
      | some v => some v
      | none =>
          let ds := pr.2.takeWhile (fun c => c.isDigit)
          let rest2 := pr.2.drop ds.length
          let prev2 := match ds.getLast? with
                       | some c => some c
                       | none => pr.1
          if decide (minD ≤ ds.length) && !(reMatch ci post prev2 rest2).isEmpty then
            some (digitVal ds)
          else none)
    none

def digitCaptureAux (ci : Bool) (pre post : RE) (minD : Nat) :
    Option Char → List Char → Option Nat
  | prev, [] => digitCaptureAt ci pre post minD prev []
  | prev, c :: rest =>
      match digitCaptureAt ci pre post minD prev (c :: rest) with
      | some v => some v
      | none => digitCaptureAux ci pre post minD (some c) rest

def searchDigitCapture (ci : Bool) (pre post : RE) (minD : Nat) (s : String) :
    Option Nat :=
  digitCaptureAux ci pre post minD none s.toList

/-- Characters of the class `[a-zA-Z_0-9:<>]`. -/
def cTypeChar (c : Char) : Bool :=
  c.isAlphanum || c == '_' || c == ':' || c == '<' || c == '>'

/-- `LARGE_ALLOC_PATTERNS`, as (prefix, min digits, suffix) triples. -/
def LARGE_ALLOC_PATTERNS : List (RE × Nat × RE) :=
  [ (reSeq [RE.wb, strLit "malloc", sp0, strLit "(", sp0], 6, reSeq [sp0, strLit ")"])
  , (reSeq [RE.wb, strLit "calloc", sp0, strLit "(", sp0], 6, reSeq [sp0, strLit ","])
  , (reSeq [strLit "new", sp1, RE.plusCls cTypeChar, sp0, strLit "[", sp0], 6,
      reSeq [sp0, strLit "]"])
  , (reSeq [RE.wb, strLit "std::vector<", RE.plusCls (fun c => c != '>'), strLit ">",
      sp0, RE.plusCls isWordChar, sp0, strLit "(", sp0], 6, reSeq [sp0, strLit ")"])
  , (reSeq [RE.wb, reAlt [strLit "np", strLit "numpy"], strLit ".",
      reAlt [strLit "zeros", strLit "ones", strLit "empty"], sp0, strLit "(", sp0,
      RE.opt (strLit "("), sp0], 4, RE.eps)
  , (reSeq [RE.wb, strLit "bytearray", sp0, strLit "(", sp0], 6, reSeq [sp0, strLit ")"]) ]

def detect_large_alloc (code : String) : Int × List String :=
  LARGE_ALLOC_PATTERNS.foldl
    (fun acc t =>
      match searchDigitCapture true t.1 t.2.2 t.2.1 code with
      | some digits =>
          if 10 ^ 6 ≤ digits then
            (acc.1 + 35,
              acc.2 ++ ["대규모 메모리 할당 탐지: " ++ toString digits ++ " 바이트 이상"])
          else (acc.1 + 10, acc.2 ++ ["메모리 할당 패턴 탐지 (잠재적 대량 할당)"])
      | none => acc)
    (0, [])

/-- `IO_IN_LOOP_SNIPPET`. -/
def io_in_loop_re : RE :=
  reSeq [ reAlt [strLit "while", strLit "for"]
        , RE.repUpTo (fun _ => true) 600
        , reAlt [ strLit "read", strLit "fread", strLit "fgets", strLit "fscanf"
                , strLit "write", strLit "send", strLit "recv", strLit "readline"
                , strLit "readlines", strLit "readinto", strLit "fs.write"
                , strLit "fs.writeFile", strLit "writeFileSync", strLit "writeFile" ]
        , sp0, strLit "(" ]

/-- `\b(write|send|recv|fwrite|fputs|fprintf|fs\.write|writeFileSync)\b`. -/
def writes_re : RE :=
  reSeq [ RE.wb
        , reAlt [ strLit "write", strLit "send", strLit "recv", strLit "fwrite"
                , strLit "fputs", strLit "fprintf", strLit "fs.write"
                , strLit "writeFileSync" ]
        , RE.wb ]

def detect_io_in_loop (code : String) : Int × List String :=
  let base :=
    if reSearch true io_in_loop_re code then
      ((25 : Int), ["반복문 내부의 반복적 I/O 패턴(파일/네트워크) — 장시간 I/O 가능"])
    else (0, [])
  let writes := countMatches true writes_re code
  if 6 ≤ writes then
    (base.1 + 10, base.2 ++ ["빈번한 I/O 호출 패턴 탐지 (count=" ++ toString writes ++ ")"])
  else base

def PROCESS_THREAD_PATTERNS : List (RE × String) :=
  [ (reSeq [RE.wb, strLit "fork", sp0, strLit "("], "\\bfork\\s*\\(")
  , (reSeq [RE.wb, strLit "exec",
      RE.opt (reAlt [strLit "v", strLit "ve", strLit "vp", strLit "vpe"]), sp0,
      strLit "("], "\\bexec(v|ve|vp|vpe)?\\s*\\(")
  , (reSeq [RE.wb, strLit "system", sp0, strLit "("], "\\bsystem\\s*\\(")
  , (reSeq [RE.wb, strLit "Thread", sp0, strLit "("], "\\bThread\\s*\\(")
  , (reSeq [RE.wb, strLit "std::thread", RE.wb], "\\bstd::thread\\b")
  , (reSeq [strLit "child_process.",
      reAlt [strLit "exec", strLit "spawn", strLit "fork", strLit "execSync",
        strLit "spawnSync"]], "child_process\\.(exec|spawn|fork|execSync|spawnSync)")
  , (reSeq [strLit "Runtime.getRuntime().exec", sp0, strLit "("],
      "Runtime\\.getRuntime\\(\\)\\.exec\\s*\\(")
  , (reSeq [strLit "new", sp1, strLit "ProcessBuilder", sp0, strLit "("],
      "new\\s+ProcessBuilder\\s*\\(")
  , (reSeq [RE.wb, strLit "subprocess.",
      reAlt [strLit "Popen", strLit "call", strLit "run", strLit "check_output"], sp0,
      strLit "("], "\\bsubprocess\\.(Popen|call|run|check_output)\\s*\\(") ]

def detect_proc_thread_spawn (code : String) : Int × List String :=
  PROCESS_THREAD_PATTERNS.foldl
    (fun acc pr =>
      if reSearch true pr.1 code then
        (acc.1 + 30, acc.2 ++ ["프로세스/스레드 생성 또는 외부명령 호출: " ++ pr.2])
      else acc)
    (0, [])

/-- A quote character of the class `['\"]`. -/
def quoteChar (c : Char) : Bool := c == '\x27' || c == '"'

def FILE_WRITE_PATTERNS : List (RE × String) :=
  [ (reSeq [RE.wb, strLit "fopen", sp0, strLit "(", RE.starCls (fun c => c != ')'),
      RE.cls quoteChar, strLit "w", RE.cls quoteChar],
      "\\bfopen\\s*\\([^\\)]*[\x27\\\"]w[\x27\\\"]")
  , (reSeq [RE.wb, strLit "ofstream", RE.wb], "\\bofstream\\b")
  , (reSeq [RE.wb, strLit "open(", RE.plusCls (fun c => c != ','), strLit ",",
      RE.starCls (fun c => c != ')'), RE.cls quoteChar, strLit "w", RE.cls quoteChar],
      "\\bopen\\([^,]+,[^)]*[\x27\\\"]w[\x27\\\"]")
  , (reSeq [RE.wb, strLit "fs.",
      reAlt [strLit "writeFile", strLit "writeFileSync", strLit "appendFile",
        strLit "unlink", strLit "rm"], RE.wb],
      "\\bfs\\.(writeFile|writeFileSync|appendFile|unlink|rm)\\b")
  , (reSeq [RE.wb, strLit "Files.",
      reAlt [strLit "write", strLit "delete", strLit "move"], RE.wb],
      "\\bFiles\\.(write|delete|move)\\b")
  , (reSeq [RE.wb, strLit "open(", RE.plusCls (fun c => c != ','), strLit ",",
      RE.starCls (fun c => c != ')'), RE.cls quoteChar, strLit "wb", RE.cls quoteChar],
      "\\bopen\\([^,]+,[^)]*[\x27\\\"]wb[\x27\\\"]") ]

def detect_file_write_patterns (code : String) : Int × List String :=
  FILE_WRITE_PATTERNS.foldl
    (fun acc pr =>
      if reSearch true pr.1 code then
        (acc.1 + 15, acc.2 ++ ["파일 쓰기/삭제/이동 패턴 탐지: " ++ pr.2])
      else acc)
    (0, [])

/-! `RECURSION_SNIPPET` = `def\s+([a-zA-Z_][a-zA-Z0-9_]*)\s*\(.*\):[\s\S]{0,400}\1\s*\(`
contains a backreference, so it is implemented directly: find `def`, one
or more spaces, a maximal identifier (the capture — maximal because the
following `\s*\(` cannot consume an identifier character), `\s*`, `(`,
then some run of non-newline characters followed by `):`, then at most
400 arbitrary characters followed by the captured identifier again,
`\s*` and `(`.  There is no `\b` before `def`, faithfully to the source
pattern.  Case-sensitive (no flags). -/

def identStartChar (c : Char) : Bool := c.isAlpha || c == '_'
def identChar (c : Char) : Bool := c.isAlphanum || c == '_'

/-- After the candidate recursive call position: `ident` then `\s*` then `(`. -/
def recCallHere (ident : List Char) (s : List Char) : Bool :=
  match matchLit false ident none s with
  | some (_, rest) => (rest.dropWhile isSpaceChar).head? == some '('
  | none => false

/-- `[\s\S]{0,400}` then the backreference: try every offset `0..400`. -/
def recTailSearch (ident : List Char) (s : List Char) : Bool :=
  (List.range (min 400 s.length + 1)).any (fun d => recCallHere ident (s.drop d))

/-- `.*\):` then the tail: try every split of the non-newline prefix. -/
def recParenSearch (ident : List Char) (s : List Char) : Bool :=
  (List.range ((s.takeWhile (fun c => c != '\n')).length + 1)).any (fun k =>
    match matchLit false [')', ':'] none (s.drop k) with
    | some (_, rest) => recTailSearch ident rest
    | none => false)

/-- Try the whole snippet at one position. -/
def recursionAt (s : List Char) : Bool :=
  match matchLit false ['d', 'e', 'f'] none s with
  | none => false
  | some (_, r1) =>
      let sp := r1.takeWhile isSpaceChar
      if sp.isEmpty then false
      else
        match r1.drop sp.length with
        | [] => false
        | c :: r3 =>
            if identStartChar c then
              let rest2 := r3.takeWhile identChar
              let ident := c :: rest2
              let r4 := (r3.drop rest2.length).dropWhile isSpaceChar
              match r4 with
              | '(' :: r5 => recParenSearch ident r5
              | _ => false
            else false

def recursionAux : List Char → Bool
  | [] => recursionAt []
  | c :: rest => recursionAt (c :: rest) || recursionAux rest

def recursionSearch (s : String) : Bool := recursionAux s.toList

def detect_recursion (code : String) : Int × List String :=
  if recursionSearch code then (20, ["재귀 호출 패턴 탐지 (탈출조건 미존재 가능성)"])
  else (0, [])

/-- `\b(exec|system|popen|Runtime\.getRuntime|child_process\.)\b` (IGNORECASE). -/
def re_blocked_exec : RE :=
  reSeq [ RE.wb
        , reAlt [strLit "exec", strLit "system", strLit "popen",
            strLit "Runtime.getRuntime", strLit "child_process."]
        , RE.wb ]

/-- `\bfork\b|\bspawn\b` (IGNORECASE). -/
def re_blocked_fork : RE := RE.alt2 (wordRE "fork") (wordRE "spawn")

/-- `\bmalloc\b|\bcalloc\b|\bnew\s+[^\s]+\s*\[` (IGNORECASE). -/
def re_blocked_alloc : RE :=
  reAlt [ wordRE "malloc", wordRE "calloc"
        , reSeq [RE.wb, strLit "new", sp1, RE.plusCls (fun c => !isSpaceChar c), sp0,
            strLit "["] ]

/-- `resource_utils.run_all_resource_checks`: fold the six detectors
(skipping zero scores), clamp the total to `[0, 100]`, and derive the
three capability tokens from their own regexes. -/
def run_all_resource_checks (code : String) : Int × List String × List String :=
  let tr := [ detect_infinite_loop code, detect_large_alloc code
            , detect_io_in_loop code, detect_proc_thread_spawn code
            , detect_file_write_patterns code, detect_recursion code ].foldl
    (fun acc sr => if sr.1 != 0 then (acc.1 + sr.1, acc.2 ++ sr.2) else acc) (0, [])
  let b1 := if reSearch true re_blocked_exec code then ["no-exec"] else []
  let b2 := if reSearch true re_blocked_fork code then ["no-fork"] else []
  let b3 := if reSearch true re_blocked_alloc code then ["no-large-alloc"] else []
  (max 0 (min 100 tr.1), tr.2, b1 ++ b2 ++ b3)

end resource_utils

/-! ## `app/detectors/c_rules.py`, `cpp_rules.py`, `java_rules.py`,
`generic_rules.py`

The three compiled-language detectors follow one shape: score their own
forbidden table, then merge `run_all_resource_checks` (sum the scores,
concatenate the reasons, union the blocked sets) and return
`make_result(score, reasons, list(sorted(set(blocked))))`. -/

/-- `str.lower()` for the ASCII letters occurring in the reason strings
(character-wise `Char.toLower`). -/
def lowerString (s : String) : String := String.mk (s.toList.map Char.toLower)

/-- Substring containment, Python's `needle in haystack`. -/
def strContainsAux (needle : List Char) : List Char → Bool
  | [] => needle.isEmpty
  | c :: rest => (matchLit false needle none (c :: rest)).isSome || strContainsAux needle rest

def strContains (needle hay : String) : Bool :=
  strContainsAux needle.toList hay.toList

namespace c_rules

def C_FORBIDDEN : List (RE × Int × String) :=
  [ (reSeq [RE.wb, strLit "system", sp0, strLit "("], 35, "system() 호출 (명령 실행)")
  , (reSeq [RE.wb, strLit "popen", sp0, strLit "("], 35, "popen() (명령 실행)")
  , (reSeq [RE.wb, reAlt [ reSeq [strLit "socket", sp0, strLit "("]
                         , reSeq [strLit "accept", sp0, strLit "("]
                         , reSeq [strLit "recv", sp0, strLit "("] ]], 20, "네트워크/소켓 사용")
  , (reSeq [RE.wb, strLit "fork", sp0, strLit "("], 40, "포크 위험")
  , (reSeq [RE.wb, strLit "exec",
      RE.opt (reAlt [strLit "v", strLit "ve", strLit "vp", strLit "vpe"]), sp0,
      strLit "("], 45, "exec 계열 호출")
  , (reSeq [RE.wb, strLit "ptrace", sp0, strLit "("], 40, "프로세스 제어 위험") ]

/-- `c_rules.analyze_c`.  `blocked` gains `"no-system-call"` when the
matched reason mentions `exec` or `fork` (lower-cased); of the Korean
reason strings only `"exec 계열 호출"` does. -/
def analyze_c (code : String) : AnalysisResult :=
  let base := C_FORBIDDEN.foldl
    (fun acc t =>
      if reSearch true t.1 code then
        let acc2 := (acc.1 + t.2.1, acc.2.1 ++ [t.2.2], acc.2.2)
        if strContains "exec" (lowerString t.2.2) || strContains "fork" (lowerString t.2.2) then
          (acc2.1, acc2.2.1, acc2.2.2 ++ ["no-system-call"])
        else acc2
      else acc)
    ((0 : Int), ([] : List String), ([] : List String))
  let r := resource_utils.run_all_resource_checks code
  make_result (base.1 + r.1) (base.2.1 ++ r.2.1) (pySortedSet (base.2.2 ++ r.2.2)) [] false

end c_rules

namespace cpp_rules

def CPP_FORBIDDEN : List (RE × Int × String) :=
  [ (reSeq [RE.wb, strLit "system", sp0, strLit "("], 35, "system() 호출")
  , (reSeq [RE.wb, strLit "popen", sp0, strLit "("], 35, "popen() 호출")
  , (reSeq [RE.wb, strLit "std::thread", RE.wb], 12, "std::thread 사용 (스레드)")
  , (reSeq [RE.wb, strLit "malloc", sp0, strLit "("], 20, "malloc 호출") ]

/-- `cpp_rules.analyze_cpp`; `"no-system-call"` when the reason mentions
`system`. -/
def analyze_cpp (code : String) : AnalysisResult :=
  let base := CPP_FORBIDDEN.foldl
    (fun acc t =>
      if reSearch true t.1 code then
        let acc2 := (acc.1 + t.2.1, acc.2.1 ++ [t.2.2], acc.2.2)
        if strContains "system" (lowerString t.2.2) then
          (acc2.1, acc2.2.1, acc2.2.2 ++ ["no-system-call"])
        else acc2
      else acc)
    ((0 : Int), ([] : List String), ([] : List String))
  let r := resource_utils.run_all_resource_checks code
  make_result (base.1 + r.1) (base.2.1 ++ r.2.1) (pySortedSet (base.2.2 ++ r.2.2)) [] false

end cpp_rules

namespace java_rules

/-- `JAVA_FORBIDDEN`; these searches pass no flags, hence are
case-sensitive. -/
def JAVA_FORBIDDEN : List (RE × Int × String) :=
  [ (reSeq [strLit "Runtime.getRuntime().exec", sp0, strLit "("], 45, "Runtime.exec 호출")
  , (reSeq [strLit "new", sp1, strLit "ProcessBuilder", sp0, strLit "("], 40,
      "ProcessBuilder 사용")
  , (reSeq [RE.wb, strLit "ServerSocket", RE.wb], 30, "서버 소켓 (수신)")
  , (reSeq [RE.wb, strLit "Thread", sp0, strLit "("], 12, "Thread 사용 (스레드 생성)") ]

/-- `java_rules.analyze_java`; `"no-exec"` when the reason mentions
`exec` or `processbuilder` (lower-cased). -/
def analyze_java (code : String) : AnalysisResult :=
  let base := JAVA_FORBIDDEN.foldl
    (fun acc t =>
      if reSearch false t.1 code then
        let acc2 := (acc.1 + t.2.1, acc.2.1 ++ [t.2.2], acc.2.2)
        if strContains "exec" (lowerString t.2.2) || strContains "processbuilder" (lowerString t.2.2) then
          (acc2.1, acc2.2.1, acc2.2.2 ++ ["no-exec"])
        else acc2
      else acc)
    ((0 : Int), ([] : List String), ([] : List String))
  let r := resource_utils.run_all_resource_checks code
  make_result (base.1 + r.1) (base.2.1 ++ r.2.1) (pySortedSet (base.2.2 ++ r.2.2)) [] false

end java_rules

namespace generic_rules

/-- `generic_rules.GENERIC_FORBIDDEN` (distinct from the python table of
the same name). -/
def GENERIC_FORBIDDEN : List (RE × Int × String) :=
  [ (reSeq [RE.wb, reAlt [strLit "eval", strLit "exec"], RE.wb], 30, "동적 코드 실행")
  , (reSeq [RE.wb, reAlt [strLit "fork", strLit "system("], RE.wb], 25, "프로세스 제어") ]

/-- `generic_rules.analyze_generic`: regex table only; no blocked tokens,
no style. -/
def analyze_generic (code : String) : AnalysisResult :=
  let base := GENERIC_FORBIDDEN.foldl
    (fun acc t => if reSearch false t.1 code then (acc.1 + t.2.1, acc.2 ++ [t.2.2]) else acc)
    ((0 : Int), ([] : List String))
  make_result base.1 base.2 [] [] false

end generic_rules

/-! ## `app/scoring.py`

`decision_logic` is integer-only.  `suggest_limits` computes with Python
floats.  Binary64 arithmetic is modelled exactly: a float value is kept
as an unnormalised integer fraction `F2` (numerator over a positive
power-of-two denominator), and `flF` rounds any such fraction to the
nearest binary64 value (52 fraction bits, round to nearest, ties to
even) using integer arithmetic only.  Every elementary float operation
is the correctly rounded exact operation.  All quantities reached from
integer scores stay well inside the normal range, so overflow and
subnormals need no modelling. -/

def decision_logic (score : Int) : String × Bool :=
  if 70 ≤ score then ("block", false)
  else if 40 ≤ score then ("sandbox", false)
  else ("allow", true)

/-- An unnormalised fraction `num / den` with `den > 0`. -/
structure F2 where
  num : Int
  den : Int

def fracLe (a b : F2) : Bool := decide (a.num * b.den ≤ b.num * a.den)

def fracLt (a b : F2) : Bool := decide (a.num * b.den < b.num * a.den)

/-- Number of bits of a natural number (`⌊log₂ n⌋ + 1` for `n > 0`),
by fuelled halving (the fuel `n` itself always suffices). -/
def bitLenAux : Nat → Nat → Nat
  | 0, _ => 0
  | fuel + 1, n => if n = 0 then 0 else 1 + bitLenAux fuel (n / 2)

def bitLen (n : Nat) : Nat := bitLenAux n n

def pow2F (e : Int) : F2 :=
  if 0 ≤ e then ⟨2 ^ e.toNat, 1⟩ else ⟨1, 2 ^ (-e).toNat⟩

/-- `⌊log₂ m⌋` for a positive fraction: bit-length estimate plus
correction by direct comparison. -/
def floorLog2F (m : F2) : Int :=
  let e0 : Int := (bitLen m.num.toNat : Int) - (bitLen m.den.toNat : Int)
  if fracLe (pow2F (e0 + 1)) m then e0 + 1
  else if fracLe (pow2F e0) m then e0
  else e0 - 1

/-- Round a fraction to the nearest binary64 value. -/
def flF (q : F2) : F2 :=
  if q.num = 0 then ⟨0, 1⟩
  else
    let neg := q.num < 0
    let m : F2 := ⟨|q.num|, q.den⟩
    let e := floorLog2F m
    let sh := 52 - e
    let scNum := if 0 ≤ sh then m.num * 2 ^ sh.toNat else m.num
    let scDen := if 0 ≤ sh then m.den else m.den * 2 ^ (-sh).toNat
    let n0 := scNum / scDen
    let r := scNum % scDen
    let n := if 2 * r < scDen then n0
             else if scDen < 2 * r then n0 + 1
             else if n0 % 2 = 0 then n0 else n0 + 1
    let em := e - 52
    let vNum := if 0 ≤ em then n * 2 ^ em.toNat else n
    let vDen := if 0 ≤ em then 1 else (2 : Int) ^ (-em).toNat
    ⟨if neg then -vNum else vNum, vDen⟩

def faddF (a b : F2) : F2 := flF ⟨a.num * b.den + b.num * a.den, a.den * b.den⟩
def fsubF (a b : F2) : F2 := flF ⟨a.num * b.den - b.num * a.den, a.den * b.den⟩
def fmulF (a b : F2) : F2 := flF ⟨a.num * b.num, a.den * b.den⟩
def fdivF (a b : F2) : F2 :=
  if b.num < 0 then flF ⟨-(a.num * b.den), a.den * (-b.num)⟩
  else flF ⟨a.num * b.den, a.den * b.num⟩

/-- Python `max`/`min` on float values compare exactly. -/
def fmaxF (a b : F2) : F2 := if fracLe b a then a else b
def fminF (a b : F2) : F2 := if fracLe a b then a else b

/-- Python's `int()` on a finite float: truncate toward zero. -/
def pyIntTruncF (q : F2) : Int :=
  if 0 ≤ q.num then q.num / q.den else -((-q.num) / q.den)

/-- The exact rational value of a float. -/
def fracVal (q : F2) : Rat := (q.num : Rat) / (q.den : Rat)

/-- The suggested sandbox limits dictionary. -/
structure Limits where
  cpu_time_sec : Int
  memory_mb : Int
  wall_time_sec : Int
  stdout_kb : Int
deriving DecidableEq

/-- `scoring.suggest_limits`.  `t = min(max(score / 100, 0), 1)` is float
division followed by exact comparisons; for the Python language each
dimension is `int(lo + (hi - lo) * (1 - t))` evaluated in binary64;
every other language gets a fixed dictionary. -/
def suggest_limits (score : Int) (lang : String) : Limits :=
  let t : F2 := fminF (fmaxF (fdivF ⟨score, 1⟩ ⟨100, 1⟩) ⟨0, 1⟩) ⟨1, 1⟩
  if lang == "python" then
    { cpu_time_sec := pyIntTruncF (faddF ⟨1, 1⟩ (fmulF ⟨10 - 1, 1⟩ (fsubF ⟨1, 1⟩ t)))
    , memory_mb := pyIntTruncF (faddF ⟨64, 1⟩ (fmulF ⟨512 - 64, 1⟩ (fsubF ⟨1, 1⟩ t)))
    , wall_time_sec := pyIntTruncF (faddF ⟨2, 1⟩ (fmulF ⟨20 - 2, 1⟩ (fsubF ⟨1, 1⟩ t)))
    , stdout_kb := pyIntTruncF (faddF ⟨16, 1⟩ (fmulF ⟨256 - 16, 1⟩ (fsubF ⟨1, 1⟩ t))) }
  else { cpu_time_sec := 2, memory_mb := 128, wall_time_sec := 5, stdout_kb := 64 }

/-! ## `app/main.py`

The analyze endpoint resolves the language and then selects the detector
on line 25: `analyze_python(req.code) if lang == "python" else
analyze_generic(req.code)`.  The parse/tokenize oracles are threaded
through for the Python branch. -/

def analyze_dispatch (lang code : String) (parsed : Option (List PyStmt))
    (toks : Option (List TokType)) : AnalysisResult :=
  if lang == "python" then python_rules.analyze_python code parsed toks
  else generic_rules.analyze_generic code

/-! ## Helper lemmas -/

theorem make_result_score_lower (s : Int) (r b : List String)
    (st : List (String × Rat)) (hb : Bool) : 0 ≤ (make_result s r b st hb).score :=
  le_max_left 0 _

theorem make_result_score_upper (s : Int) (r b : List String)
    (st : List (String × Rat)) (hb : Bool) : (make_result s r b st hb).score ≤ 100 :=
  max_le (by norm_num) (min_le_left 100 s)

theorem pySortedSet_sorted (l : List String) :
    List.Sorted pyStrLe (pySortedSet l) :=
  List.sorted_insertionSort pyStrLe l.dedup

theorem pySortedSet_nodup (l : List String) : (pySortedSet l).Nodup :=
  ((List.perm_insertionSort pyStrLe l.dedup).nodup_iff).mpr l.nodup_dedup

theorem mem_pySortedSet {x : String} {l : List String} :
    x ∈ pySortedSet l ↔ x ∈ l := by
  unfold pySortedSet
  rw [(List.perm_insertionSort pyStrLe l.dedup).mem_iff, List.mem_dedup]

/-! ## The claims -/

/-- C8: `decide` is a pure function of the final score with thresholds
70 and 40: `score ≥ 70` → block/not safe, `40 ≤ score < 70` →
sandbox/not safe, `score < 40` → allow/safe. -/
theorem decision_logic_thresholds (s : Int) :
    (70 ≤ s → decision_logic s = ("block", false)) ∧
    (40 ≤ s → s < 70 → decision_logic s = ("sandbox", false)) ∧
    (s < 40 → decision_logic s = ("allow", true)) := by
  refine ⟨fun h => ?_, fun h1 h2 => ?_, fun h => ?_⟩ <;>
    unfold decision_logic <;>
      split <;> first | rfl | omega | (split <;> first | rfl | omega)

theorem decision_logic_thresholds_witness :
    decision_logic 85 = ("block", false) ∧
    decision_logic 55 = ("sandbox", false) ∧
    decision_logic 10 = ("allow", true) :=
  ⟨(decision_logic_thresholds 85).1 (by norm_num),
   (decision_logic_thresholds 55).2.1 (by norm_num) (by norm_num),
   (decision_logic_thresholds 10).2.2 (by norm_num)⟩

/-- C10: no detector variant ever sets `hard_block`; every returned
result has `hard_block = false` (the `make_result` default, which no call
site overrides). -/
theorem hard_block_always_false :
    (∀ code parsed toks,
      (python_rules.analyze_python code parsed toks).hard_block = false) ∧
    (∀ code, (c_rules.analyze_c code).hard_block = false) ∧
    (∀ code, (cpp_rules.analyze_cpp code).hard_block = false) ∧
    (∀ code, (java_rules.analyze_java code).hard_block = false) ∧
    (∀ code, (generic_rules.analyze_generic code).hard_block = false) :=
  ⟨fun _ _ _ => rfl, fun _ => rfl, fun _ => rfl, fun _ => rfl, fun _ => rfl⟩

/-- C3: every detector variant returns a score clamped to `[0, 100]` and
a `blocked` list without duplicates in lexicographic order. -/
theorem results_clamped_and_blocked_sorted :
    (∀ code parsed toks,
      let r := python_rules.analyze_python code parsed toks
      (0 ≤ r.score ∧ r.score ≤ 100) ∧ r.blocked.Nodup ∧ List.Sorted pyStrLe r.blocked) ∧
    (∀ code,
      let r := c_rules.analyze_c code
      (0 ≤ r.score ∧ r.score ≤ 100) ∧ r.blocked.Nodup ∧ List.Sorted pyStrLe r.blocked) ∧
    (∀ code,
      let r := cpp_rules.analyze_cpp code
      (0 ≤ r.score ∧ r.score ≤ 100) ∧ r.blocked.Nodup ∧ List.Sorted pyStrLe r.blocked) ∧
    (∀ code,
      let r := java_rules.analyze_java code
      (0 ≤ r.score ∧ r.score ≤ 100) ∧ r.blocked.Nodup ∧ List.Sorted pyStrLe r.blocked) ∧
    (∀ code,
      let r := generic_rules.analyze_generic code
      (0 ≤ r.score ∧ r.score ≤ 100) ∧ r.blocked.Nodup ∧ List.Sorted pyStrLe r.blocked) := by
  refine ⟨fun code parsed toks => ⟨⟨make_result_score_lower _ _ _ _ _,
      make_result_score_upper _ _ _ _ _⟩, pySortedSet_nodup _, pySortedSet_sorted _⟩,
    fun code => ⟨⟨make_result_score_lower _ _ _ _ _, make_result_score_upper _ _ _ _ _⟩,
      pySortedSet_nodup _, pySortedSet_sorted _⟩,
    fun code => ⟨⟨make_result_score_lower _ _ _ _ _, make_result_score_upper _ _ _ _ _⟩,
      pySortedSet_nodup _, pySortedSet_sorted _⟩,
    fun code => ⟨⟨make_result_score_lower _ _ _ _ _, make_result_score_upper _ _ _ _ _⟩,
      pySortedSet_nodup _, pySortedSet_sorted _⟩,
    fun code => ⟨⟨make_result_score_lower _ _ _ _ _, make_result_score_upper _ _ _ _ _⟩,
      List.nodup_nil, List.sorted_nil⟩⟩

/-- C9 counterexample: the claim asserts every Python dimension equals the
floor of the exact linear interpolation; at score 55 the code's binary64
evaluation of the stdout dimension yields 123 (the float product
`240 * (1 - 0.55)` falls just below the exact value 108), while the floor
of the exact interpolation is 124. -/
theorem suggest_limits_not_exact_floor :
    (suggest_limits 55 "python").stdout_kb = 123 ∧
    ⌊(16 : Rat) + (256 - 16) * (1 - min (max ((55 : Rat) / 100) 0) 1)⌋ = 124 ∧
    (123 : Int) ≠ 124 := by
  refine ⟨by decide, ?_, by decide⟩
  norm_num

/-- C9 (amended): at score 0 the Python limits are the generous bounds
(10 s CPU, 512 MB, 20 s wall, 256 KB stdout) and at score 100 the strict
bounds (1, 64, 2, 16); every non-Python language gets the constant
dictionary (2, 128, 5, 64) at every score; each Python dimension is the
`int()` truncation of the binary64 evaluation of the interpolation, which
can fall one below the floor of the exact interpolation (at score 55 the
stdout dimension is 123, not 124). -/
theorem suggest_limits_values :
    suggest_limits 0 "python" =
      { cpu_time_sec := 10, memory_mb := 512, wall_time_sec := 20, stdout_kb := 256 } ∧
    suggest_limits 100 "python" =
      { cpu_time_sec := 1, memory_mb := 64, wall_time_sec := 2, stdout_kb := 16 } ∧
    suggest_limits 55 "python" =
      { cpu_time_sec := 5, memory_mb := 265, wall_time_sec := 10, stdout_kb := 123 } ∧
    (∀ lang, lang ≠ "python" → ∀ score,
      suggest_limits score lang =
        { cpu_time_sec := 2, memory_mb := 128, wall_time_sec := 5, stdout_kb := 64 }) := by
  refine ⟨by decide, by decide, by decide, fun lang h score => ?_⟩
  unfold suggest_limits
  rw [if_neg]
  simpa using h

theorem suggest_limits_values_witness :
    suggest_limits 31 "java" =
      { cpu_time_sec := 2, memory_mb := 128, wall_time_sec := 5, stdout_kb := 64 } :=
  suggest_limits_values.2.2.2 "java" (by decide) 31

/-- Modelled from the spec: detector selection as "polymorphism over a
fixed closed set of variants {Python, C, C++, Java, Generic} keyed by the
resolved language string, with Generic as the required default arm" (the
keys being the lowercased language names the resolver produces).  The
authority is the actual dispatch on `main.py` line 25
(`analyze_dispatch` above); this definition follows the spec's words for
comparison. -/
def dispatch_spec (lang code : String) (parsed : Option (List PyStmt))
    (toks : Option (List TokType)) : AnalysisResult :=
  if lang == "python" then python_rules.analyze_python code parsed toks
  else if lang == "c" then c_rules.analyze_c code
  else if lang == "cpp" then cpp_rules.analyze_cpp code
  else if lang == "java" then java_rules.analyze_java code
  else generic_rules.analyze_generic code

/-- C5 counterexample: the endpoint's dispatch does not invoke the C
detector for language `"c"`; on `system(x)` the generic detector returns
no blocked tokens and score 25, while the C detector (which the spec's
five-variant dispatch would select) returns `["no-exec"]` and score 65. -/
theorem dispatch_is_not_five_variant :
    analyze_dispatch "c" "system(x)" none none ≠
      dispatch_spec "c" "system(x)" none none := by decide

/-- C5 (amended): the endpoint dispatches over only two variants: the
Python detector when the resolved language is `"python"`, the generic
detector for every other language.  The C, C++ and Java detectors exist
but are never selected: for language `"c"` and input `system(x)` the
dispatch returns the generic result (blocked empty, score 25) and not the
C result (blocked `["no-exec"]`, score 65). -/
theorem dispatch_two_variants :
    (∀ code parsed toks,
      analyze_dispatch "python" code parsed toks =
        python_rules.analyze_python code parsed toks) ∧
    (∀ lang code parsed toks, lang ≠ "python" →
      analyze_dispatch lang code parsed toks = generic_rules.analyze_generic code) ∧
    analyze_dispatch "c" "system(x)" none none =
      generic_rules.analyze_generic "system(x)" ∧
    (generic_rules.analyze_generic "system(x)").score = 25 ∧
    (generic_rules.analyze_generic "system(x)").blocked = [] ∧
    (c_rules.analyze_c "system(x)").score = 65 ∧
    (c_rules.analyze_c "system(x)").blocked = ["no-exec"] := by
  refine ⟨fun code parsed toks => rfl, fun lang code parsed toks h => ?_,
    by decide, by decide, by decide, by decide, by decide⟩
  unfold analyze_dispatch
  rw [if_neg]
  simpa using h

theorem dispatch_two_variants_witness :
    analyze_dispatch "javascript" "x" none none =
      generic_rules.analyze_generic "x" :=
  dispatch_two_variants.2.1 "javascript" "x" none none (by decide)

/-- C1 counterexample: on the source `while True:\n    pass` (CPython
parse and token stream recorded at `whileTrueTree` / `whileTrueToks`) the
detector does flag the loop — but `hard_block` is `false`, because no
call site of `make_result` in the repository ever passes `hard_block`;
the claim's conjunction with `hard_block = true` is therefore false at
this input. -/
theorem while_true_pass_not_hard_blocked :
    ¬ ((python_rules.analyze_python "while True:\n    pass" (some whileTrueTree)
          (some whileTrueToks)).hard_block = true ∧
       "infinite-loop" ∈ (python_rules.analyze_python "while True:\n    pass"
          (some whileTrueTree) (some whileTrueToks)).blocked ∧
       (decision_logic (python_rules.analyze_python "while True:\n    pass"
          (some whileTrueTree) (some whileTrueToks)).score).1 = "block") := by
  decide

/-- C1 (amended): analyzing `while True:\n    pass` yields
`hard_block = false` (no detector ever sets it), `infinite-loop` in
`blocked`, score 100 (20 from the regex table + 90 from the structural
check, clamped), and `decide` on that score returns block/not-safe. -/
theorem while_true_pass_blocked_by_score :
    (python_rules.analyze_python "while True:\n    pass" (some whileTrueTree)
        (some whileTrueToks)).hard_block = false ∧
    "infinite-loop" ∈ (python_rules.analyze_python "while True:\n    pass"
        (some whileTrueTree) (some whileTrueToks)).blocked ∧
    (python_rules.analyze_python "while True:\n    pass" (some whileTrueTree)
        (some whileTrueToks)).score = 100 ∧
    decision_logic (python_rules.analyze_python "while True:\n    pass"
        (some whileTrueTree) (some whileTrueToks)).score = ("block", false) := by
  decide

/-- Modelled from the spec: the three condition shapes the spec says are
the only infinite-loop hazards — the boolean literal `True`, the integer
literal `1`, and the bare identifier `True` (for comparison with the
code's `_is_constant_true_test`). -/
def isThreeShapes : PyExpr → Bool
  | .constant (.boolC true) => true
  | .constant (.intC 1) => true
  | .name "True" => true
  | _ => false

/-- C7 counterexample: `_is_constant_true_test` accepts the integer
literal `2` (any truthy constant satisfies the first branch,
`bool(value) is True`), which is none of the spec's three shapes. -/
theorem constant_true_test_not_three_shapes :
    python_rules._is_constant_true_test (.constant (.intC 2)) = true ∧
    isThreeShapes (.constant (.intC 2)) = false := ⟨rfl, rfl⟩

/-- C7 (amended): the structural check accepts a loop condition iff it
is a constant with truthy value (`bool(value) is True` — any nonzero
number, nonempty string, or `True`, not only the three spec shapes) or
the bare identifier `True`; and on a one-statement module
`while <const c>: pass` the detector reports the hazard exactly when the
constant is truthy. -/
theorem constant_true_test_characterization :
    (∀ t, python_rules._is_constant_true_test t = true ↔
      ((∃ c, t = PyExpr.constant c ∧ pyTruthy c = true) ∨ t = PyExpr.name "True")) ∧
    (∀ c, python_rules._detect_infinite_loops_in_ast
        [.whileStmt 1 (.constant c) [.passStmt 2] []] =
      if pyTruthy c then ["무한루프 탐지: constant True while without exit"] else []) := by
  constructor
  · intro t
    cases t <;>
      simp [python_rules._is_constant_true_test]
  · intro c
    simp [python_rules._detect_infinite_loops_in_ast, walkStmts, walkStmt, walkExpr,
      python_rules.infinite_loop_node_reasons, python_rules._is_constant_true_test,
      python_rules._body_has_exit_statements, python_rules.exit_check_node]

/-- C4: a `while True:` loop with a `break` in its body is not flagged;
and the escape scan is characterized by: `break`/`return`/`raise` are
exits; calls to bare `exit`/`quit` or to attributes
`exit`/`abort`/`terminate` are exits; the scan distributes into
`if`/`for`/`while` bodies and `orelse`, `with` bodies, and `try` bodies,
handlers, `orelse` and `finalbody`; and a nested function, async
function, or class definition contributes nothing (a lambda can only
occur as an expression statement, which is not a call and likewise
contributes nothing). -/
theorem body_exit_scan_characterization :
    python_rules._detect_infinite_loops_in_ast
      [.whileStmt 1 (.constant (.boolC true)) [.breakStmt 2] []] = [] ∧
    (∀ ln rest, python_rules._body_has_exit_statements (.breakStmt ln :: rest) = true) ∧
    (∀ ln v rest, python_rules._body_has_exit_statements (.returnStmt ln v :: rest) = true) ∧
    (∀ ln e rest, python_rules._body_has_exit_statements (.raiseStmt ln e :: rest) = true) ∧
    (∀ ln f args rest, python_rules._body_has_exit_statements
        (.exprStmt ln (.call (.name f) args) :: rest) =
      ((f == "exit" || f == "quit") || python_rules._body_has_exit_statements rest)) ∧
    (∀ ln obj a args rest, python_rules._body_has_exit_statements
        (.exprStmt ln (.call (.attribute obj a) args) :: rest) =
      ((a == "exit" || a == "abort" || a == "terminate") ||
        python_rules._body_has_exit_statements rest)) ∧
    (∀ ln t b o rest, python_rules._body_has_exit_statements (.ifStmt ln t b o :: rest) =
      (python_rules._body_has_exit_statements b ||
        python_rules._body_has_exit_statements o ||
        python_rules._body_has_exit_statements rest)) ∧
    (∀ ln tg it b o rest, python_rules._body_has_exit_statements
        (.forStmt ln tg it b o :: rest) =
      (python_rules._body_has_exit_statements b ||
        python_rules._body_has_exit_statements o ||
        python_rules._body_has_exit_statements rest)) ∧
    (∀ ln t b o rest, python_rules._body_has_exit_statements
        (.whileStmt ln t b o :: rest) =
      (python_rules._body_has_exit_statements b ||
        python_rules._body_has_exit_statements o ||
        python_rules._body_has_exit_statements rest)) ∧
    (∀ ln c b rest, python_rules._body_has_exit_statements (.withStmt ln c b :: rest) =
      (python_rules._body_has_exit_statements b ||
        python_rules._body_has_exit_statements rest)) ∧
    (∀ ln b hs o f rest, python_rules._body_has_exit_statements
        (.tryStmt ln b hs o f :: rest) =
      (python_rules._body_has_exit_statements b ||
        python_rules._body_has_exit_statements o ||
        python_rules.handlers_have_exit hs ||
        python_rules._body_has_exit_statements f ||
        python_rules._body_has_exit_statements rest)) ∧
    (∀ h hs, python_rules.handlers_have_exit (h :: hs) =
      (python_rules._body_has_exit_statements h || python_rules.handlers_have_exit hs)) ∧
    (∀ ln nm b rest, python_rules._body_has_exit_statements
        (.functionDef ln nm b :: rest) = python_rules._body_has_exit_statements rest) ∧
    (∀ ln nm b rest, python_rules._body_has_exit_statements
        (.asyncFunctionDef ln nm b :: rest) =
      python_rules._body_has_exit_statements rest) ∧
    (∀ ln nm b rest, python_rules._body_has_exit_statements
        (.classDef ln nm b :: rest) = python_rules._body_has_exit_statements rest) ∧
    (∀ ln e rest, python_rules._body_has_exit_statements
        (.exprStmt ln (.lambdaE e) :: rest) =
      python_rules._body_has_exit_statements rest) := by
  refine ⟨by decide, ?_, ?_, ?_, ?_, ?_, ?_, ?_, ?_, ?_, ?_, ?_, ?_, ?_, ?_, ?_⟩ <;>
    intros <;>
    simp [python_rules._body_has_exit_statements, python_rules.exit_check_node,
      python_rules.handlers_have_exit, Bool.or_assoc, Bool.or_comm, Bool.or_left_comm]

/-- Modelled from the spec: `analyze_python` as the spec describes it —
after the lexical and tree passes, invoke section 4.1's
`run_all_resource_checks` on the same text and merge exactly as the C,
C++ and Java detectors do (sum scores, concatenate reasons, union blocked
sets, dedupe and sort blocked).  The authority is the actual
`analyze_python`, which performs no such merge; this definition follows
the spec's words for comparison. -/
def analyze_python_with_resources (code : String) (parsed : Option (List PyStmt))
    (toks : Option (List TokType)) : AnalysisResult :=
  let rx := python_rules.regex_pass code
  let astr := python_rules.ast_pass parsed
  let r := resource_utils.run_all_resource_checks code
  let style : List (String × Rat) :=
    [ ("comment_ratio", round_py (comment_ratio_q toks) 3)
    , ("avg_function_length",
        round_py (match parsed with
                  | some t => avg_function_len_python t
                  | none => 0) 1) ]
  make_result (rx.1 + astr.1 + r.1) (rx.2 ++ astr.2.1 ++ r.2.1)
    (pySortedSet (astr.2.2 ++ r.2.2)) style false

/- CPython artefacts for the one-word source `"fork"`:
`ast.parse` gives `Module([Expr(Name('fork'))])` (line 1) and `tokenize`
gives ENCODING NAME NEWLINE ENDMARKER. -/
def forkTree : List PyStmt := [.exprStmt 1 (.name "fork")]

def forkToks : List TokType := [.ENCODING, .NAME, .NEWLINE, .ENDMARKER]

/-- C2 counterexample: on the source `fork` the resource heuristics
produce the capability token `no-fork` (`\bfork\b|\bspawn\b` matches), so
the spec's merged detector returns `blocked = ["no-fork"]`; the actual
Python detector returns `blocked = []` — it never invokes
`run_all_resource_checks`. -/
theorem analyze_python_does_not_merge_resources :
    (python_rules.analyze_python "fork" (some forkTree) (some forkToks)).blocked ≠
      (analyze_python_with_resources "fork" (some forkTree) (some forkToks)).blocked := by
  decide

/-- The only capability tokens the Python detector can ever emit:
`infinite-loop` from the structural loop check and `no-<module>` for the
nine forbidden-import keys. -/
def pyTokens : List String :=
  [ "infinite-loop", "no-subprocess", "no-socket", "no-os", "no-sys"
  , "no-multiprocessing", "no-threading", "no-httpx", "no-requests", "no-ctypes" ]

theorem lookup_imports_token (mod : String) (pts : Int)
    (h : List.lookup mod python_rules.PY_FORBIDDEN_IMPORTS = some pts) :
    ("no-" ++ mod) ∈ pyTokens := by
  simp only [python_rules.PY_FORBIDDEN_IMPORTS, List.lookup] at h
  repeat' split at h
  all_goals simp_all [pyTokens]

theorem import_alias_check_blocked (acc : Int × List String × List String)
    (nm : String) (x : String)
    (hx : x ∈ (python_rules.import_alias_check acc nm).2.2) :
    x ∈ acc.2.2 ∨ x ∈ pyTokens := by
  simp only [python_rules.import_alias_check] at hx
  split at hx
  · next pts hl =>
      rcases List.mem_append.mp hx with h | h
      · exact Or.inl h
      · simp only [List.mem_singleton] at h
        subst h
        exact Or.inr (lookup_imports_token _ _ hl)
  · exact Or.inl hx

theorem import_fold_blocked (names : List String) :
    ∀ acc : Int × List String × List String, ∀ x : String,
      x ∈ (names.foldl python_rules.import_alias_check acc).2.2 →
        x ∈ acc.2.2 ∨ x ∈ pyTokens := by
  induction names with
  | nil => exact fun acc x h => Or.inl h
  | cons nm rest ih =>
      intro acc x hx
      rcases ih _ x hx with h | h
      · exact import_alias_check_blocked acc nm x h
      · exact Or.inr h

theorem ast_node_check_expr_blocked (acc : Int × List String × List String)
    (e : PyExpr) :
    (python_rules.ast_node_check acc (AstNode.expr e)).2.2 = acc.2.2 := by
  rcases e with c | id | ⟨v, a⟩ | ⟨f, args⟩ | b <;> try rfl
  rcases f with c | id | ⟨v, a⟩ | ⟨g, gargs⟩ | b <;>
    first
      | rfl
      | (simp only [python_rules.ast_node_check]; split <;> rfl)

theorem ast_node_check_blocked (acc : Int × List String × List String)
    (n : AstNode) (x : String)
    (hx : x ∈ (python_rules.ast_node_check acc n).2.2) :
    x ∈ acc.2.2 ∨ x ∈ pyTokens := by
  rcases n with s | e
  · cases s
    case importStmt ln names => exact import_fold_blocked names acc x hx
    case importFrom ln m names => exact import_fold_blocked names acc x hx
    all_goals exact Or.inl hx
  · rw [ast_node_check_expr_blocked] at hx
    exact Or.inl hx

theorem walk_fold_blocked (nodes : List AstNode) :
    ∀ acc : Int × List String × List String, ∀ x : String,
      x ∈ (nodes.foldl python_rules.ast_node_check acc).2.2 →
        x ∈ acc.2.2 ∨ x ∈ pyTokens := by
  induction nodes with
  | nil => exact fun acc x h => Or.inl h
  | cons n rest ih =>
      intro acc x hx
      rcases ih _ x hx with h | h
      · exact ast_node_check_blocked acc n x h
      · exact Or.inr h

theorem ast_pass_blocked (parsed : Option (List PyStmt)) (x : String)
    (hx : x ∈ (python_rules.ast_pass parsed).2.2) : x ∈ pyTokens := by
  rcases parsed with _ | tree
  · simp [python_rules.ast_pass] at hx
  · unfold python_rules.ast_pass at hx
    simp only at hx
    split at hx
    · rcases walk_fold_blocked _ _ x hx with h | h
      · simp at h
      · exact h
    · rcases List.mem_append.mp hx with h | h
      · rcases walk_fold_blocked _ _ x h with h2 | h2
        · simp at h2
        · exact h2
      · simp only [List.mem_singleton] at h
        subst h
        simp [pyTokens]

/-- C2 (amended): the Python detector never folds in the shared resource
heuristics of 4.1: on the source `fork` it emits no blocked token while
the C, C++ and Java detectors (which do merge `run_all_resource_checks`)
all emit `no-fork`; and for every input the Python detector's blocked
tokens come only from its own passes (`infinite-loop` and the
`no-<module>` import tokens), never the resource capability tokens
`no-exec`, `no-fork`, `no-large-alloc`. -/
theorem analyze_python_resource_free :
    (python_rules.analyze_python "fork" (some forkTree) (some forkToks)).blocked = [] ∧
    (resource_utils.run_all_resource_checks "fork").2.2 = ["no-fork"] ∧
    (c_rules.analyze_c "fork").blocked = ["no-fork"] ∧
    (cpp_rules.analyze_cpp "fork").blocked = ["no-fork"] ∧
    (java_rules.analyze_java "fork").blocked = ["no-fork"] ∧
    (∀ code parsed toks x,
      x ∈ (python_rules.analyze_python code parsed toks).blocked → x ∈ pyTokens) ∧
    (∀ code parsed toks,
      "no-exec" ∉ (python_rules.analyze_python code parsed toks).blocked ∧
      "no-fork" ∉ (python_rules.analyze_python code parsed toks).blocked ∧
      "no-large-alloc" ∉ (python_rules.analyze_python code parsed toks).blocked) := by
  have hmem : ∀ code parsed toks x,
      x ∈ (python_rules.analyze_python code parsed toks).blocked → x ∈ pyTokens := by
    intro code parsed toks x hx
    exact ast_pass_blocked parsed x (mem_pySortedSet.mp hx)
  refine ⟨by decide, by decide, by decide, by decide, by decide, hmem,
    fun code parsed toks => ⟨fun h => ?_, fun h => ?_, fun h => ?_⟩⟩ <;>
    · have := hmem code parsed toks _ h
      simp [pyTokens] at this

/- CPython artefacts for `"import os"`: `ast.parse` gives
`Module([Import([alias('os')])])`, `tokenize` gives
ENCODING NAME NAME NEWLINE ENDMARKER; the detector blocks `no-os`. -/
def importOsTree : List PyStmt := [.importStmt 1 ["os"]]

def importOsToks : List TokType := [.ENCODING, .NAME, .NAME, .NEWLINE, .ENDMARKER]

theorem analyze_python_resource_free_witness :
    "no-os" ∈ pyTokens ∧
    "no-fork" ∉ (python_rules.analyze_python "import os" (some importOsTree)
      (some importOsToks)).blocked :=
  ⟨analyze_python_resource_free.2.2.2.2.2.1 "import os" (some importOsTree)
      (some importOsToks) "no-os" (by decide),
   (analyze_python_resource_free.2.2.2.2.2.2 "import os" (some importOsTree)
      (some importOsToks)).2.1⟩

/- CPython artefacts for `"# hi\nif"`: `ast.parse` raises
`SyntaxError: invalid syntax` (so the detector takes its `except` path),
while `tokenize` succeeds with
ENCODING COMMENT NL NAME NEWLINE ENDMARKER. -/
def hiIfToks : List TokType :=
  [.ENCODING, .COMMENT, .NL, .NAME, .NEWLINE, .ENDMARKER]

theorem comment_ratio_hiIf : comment_ratio_q (some hiIfToks) = 1 / 4 := by
  have h1 : (List.filter (fun t => t == TokType.COMMENT) hiIfToks).length = 1 := by decide
  have h2 : (List.filter (fun t => t != TokType.ENCODING && t != TokType.NL)
      hiIfToks).length = 4 := by decide
  simp only [comment_ratio_q, h1, h2]
  norm_num

theorem round3_quarter : round_py (1 / 4) 3 = 1 / 4 := by
  unfold round_py roundHalfEvenZ
  norm_num

theorem round_py_zero (d : Nat) : round_py 0 d = 0 := by
  unfold round_py roundHalfEvenZ
  norm_num

/-- C6 counterexample: the claim asserts that on every parse failure both
style metrics report zero; on the source `# hi\nif` parsing fails but
tokenizing succeeds, and the comment ratio is `1/4 ≠ 0` (the comment
ratio is computed from the token stream, independently of the parse). -/
theorem parse_failure_comment_ratio_nonzero :
    (python_rules.analyze_python "# hi\nif" none (some hiIfToks)).style.lookup
      "comment_ratio" = some (1 / 4) ∧ ((1 : Rat) / 4) ≠ 0 := by
  refine ⟨?_, by norm_num⟩
  show List.lookup "comment_ratio"
      [ ("comment_ratio", round_py (comment_ratio_q (some hiIfToks)) 3)
      , ("avg_function_length", round_py 0 1) ] = some (1 / 4)
  rw [comment_ratio_hiIf, round3_quarter]
  simp [List.lookup]

/-- C6 (amended): when parsing fails the Python detector still returns a
well-formed result: the score is the clamped regex score plus the fixed
`+5` penalty, the parse-failure reason is present, no blocked tokens are
produced, the tree-based average-function-length metric reports zero, and
the comment ratio reports zero whenever tokenizing fails as well (as it
does for unbalanced parentheses; a parse-failing input that still
tokenizes can have a nonzero comment ratio). -/
theorem parse_failure_behaviour (code : String) (toks : Option (List TokType)) :
    (python_rules.analyze_python code none toks).score =
      max 0 (min 100 ((python_rules.regex_pass code).1 + 5)) ∧
    "AST 파싱 실패" ∈ (python_rules.analyze_python code none toks).reasons ∧
    (python_rules.analyze_python code none toks).blocked = [] ∧
    (python_rules.analyze_python code none toks).style.lookup "avg_function_length" =
      some 0 ∧
    (toks = none →
      (python_rules.analyze_python code none toks).style.lookup "comment_ratio" =
        some 0) := by
  refine ⟨rfl, ?_, rfl, ?_, fun ht => ?_⟩
  · show "AST 파싱 실패" ∈ (python_rules.regex_pass code).2 ++ ["AST 파싱 실패"]
    simp
  · show List.lookup "avg_function_length"
        [ ("comment_ratio", round_py (comment_ratio_q toks) 3)
        , ("avg_function_length", round_py 0 1) ] = some 0
    rw [round_py_zero]
    simp [List.lookup]
  · subst ht
    show List.lookup "comment_ratio"
        [ ("comment_ratio", round_py (comment_ratio_q none) 3)
        , ("avg_function_length", round_py 0 1) ] = some 0
    rw [show comment_ratio_q none = 0 from rfl, round_py_zero]
    simp [List.lookup]

/- For the witness input `"("`, CPython's `ast.parse` raises a
`SyntaxError` and `tokenize` raises `TokenError: EOF in multi-line
statement`, so both oracles are `none`. -/
theorem parse_failure_behaviour_witness :
    (python_rules.analyze_python "(" none none).score =
      max 0 (min 100 ((python_rules.regex_pass "(").1 + 5)) ∧
    "AST 파싱 실패" ∈ (python_rules.analyze_python "(" none none).reasons ∧
    (python_rules.analyze_python "(" none none).style.lookup "comment_ratio" =
      some 0 :=
  ⟨(parse_failure_behaviour "(" none).1, (parse_failure_behaviour "(" none).2.1,
   (parse_failure_behaviour "(" none).2.2.2.2 rfl⟩
